import Mathlib

/-!
# Verification of the NFL overtime simulator (`NFLOvertimeSim.py`)

This file gives a shallow embedding of the drive/game simulation engine of
`NFLOvertimeSim.py` and proves properties about it.  Python floats are
modelled as rationals (`ℚ`); every random draw (`np.random.triangular`,
`np.random.uniform`, `np.random.normal`) is modelled by consuming the next
value of an explicit oracle stream (`Rng`), so that each embedded function is
a deterministic function of the program state and the oracle.  Python
dynamic-typing failures (`TypeError`) are modelled with `Except Unit`, and
the unbounded `while` loops of the source are modelled with an explicit fuel
parameter (`Res.fuelOut` marks fuel exhaustion, which is an artifact of the
embedding, not of the source: the source simply keeps running).
-/

namespace NFLSim

set_option linter.unusedVariables false

/-- A Python value that is either a plain number or a one-element tuple
`(q,)`.  The constructor of `FootballTeam` writes
`self.first_down_yards_needed: int | float = 10,` (with a trailing comma),
so this attribute initially holds the tuple `(10,)`; `reset_series`
overwrites it with the plain number `10`. -/
inductive YardsVal where
  | num (q : ℚ)
  | tup (q : ℚ)
deriving DecidableEq

/-- One per-play record, modelling the Python result dictionaries.  Keys that
a given play type does not set are modelled as `none`. -/
structure PlayRec where
  play_type : Option String := none
  field_position : ℚ
  down : ℕ
  yards_to_first_down : YardsVal
  yards_gained : Option ℚ := none
  points_from_play : Option ℕ := none
  punt_distance : Option ℚ := none
  opponent_position : Option ℚ := none
  made_kick : Option Bool := none
deriving DecidableEq

/-- The mutable state of one `FootballTeam` object. -/
structure FootballTeam where
  name : String
  has_completed_a_posession : Bool
  min_yards : ℚ
  exp_yards : ℚ
  max_yards : ℚ
  punt_distance : ℚ
  punt_stdv : ℚ
  fourth_down_yard_thresh : ℚ
  fourth_down_position_thresh : ℚ
  two_point_conversion_rate : ℚ
  go_for_two : Bool
  need_touchdown : Bool
  need_score : Bool
  downs_completed : ℕ
  field_position : ℚ
  score : ℕ
  first_down_yards_needed : YardsVal
  had_ball_first : Option Bool
  has_completed_a_possession : Bool
  drive_data : List (List PlayRec)
deriving DecidableEq

/-- The oracle replacing numpy's global random source: an infinite stream of
rationals together with a cursor.  Each call to a sampler consumes the next
value. -/
structure Rng where
  stream : ℕ → ℚ
  idx : ℕ

/-- Draw the next oracle value. -/
def Rng.next (r : Rng) : ℚ × Rng :=
  (r.stream r.idx, { r with idx := r.idx + 1 })

/-- `FootballTeam.__init__` (source lines 10-44).  All parameters are stored
verbatim; no validation of any kind is performed.  Note the trailing comma on
line 41, which makes `first_down_yards_needed` a one-element tuple. -/
def FootballTeam.init (name : String) (has_completed_a_posession : Bool)
    (min_yards exp_yards max_yards punt_distance punt_stdv
      fourth_down_yard_thresh fourth_down_position_thresh
      two_point_conversion_rate : ℚ)
    (go_for_two need_touchdown need_score : Bool) : FootballTeam where
  name := name
  has_completed_a_posession := has_completed_a_posession
  min_yards := min_yards
  exp_yards := exp_yards
  max_yards := max_yards
  punt_distance := punt_distance
  punt_stdv := punt_stdv
  fourth_down_yard_thresh := fourth_down_yard_thresh
  fourth_down_position_thresh := fourth_down_position_thresh
  two_point_conversion_rate := two_point_conversion_rate
  go_for_two := go_for_two
  need_touchdown := need_touchdown
  need_score := need_score
  downs_completed := 0
  field_position := 25
  score := 0
  first_down_yards_needed := .tup 10
  had_ball_first := none
  has_completed_a_possession := false
  drive_data := []

def FootballTeam.update_score (t : FootballTeam) (score_value : ℕ) : FootballTeam :=
  { t with score := t.score + score_value }

def FootballTeam.set_field_position (t : FootballTeam) (new_field_position : ℚ) : FootballTeam :=
  { t with field_position := new_field_position }

def FootballTeam.update_field_position (t : FootballTeam) (play_result : ℚ) : FootballTeam :=
  { t with field_position := t.field_position + play_result }

def FootballTeam.reset_series (t : FootballTeam) : FootballTeam :=
  { t with downs_completed := 0, first_down_yards_needed := .num 10 }

/-- `update_yards_to_firstdown` (lines 55-59): subtract the play result from
`first_down_yards_needed` and reset the series if the remainder is `≤ 0`.
If the attribute still holds the constructor's tuple, Python raises a
`TypeError` on the subtraction, modelled as `.error ()`. -/
def FootballTeam.update_yards_to_firstdown (t : FootballTeam) (play_result : ℚ) :
    Except Unit FootballTeam :=
  match t.first_down_yards_needed with
  | .tup _ => .error ()
  | .num q =>
    let t1 := { t with first_down_yards_needed := .num (q - play_result) }
    if q - play_result ≤ 0 then .ok t1.reset_series else .ok t1

def FootballTeam.check_touchdown (t : FootballTeam) : Bool :=
  t.field_position ≥ 100

/-- `get_play_conditions_dict` (lines 99-109): boiler-plate snapshot of the
game state at the start of a play. -/
def FootballTeam.get_play_conditions_dict (t : FootballTeam) (play_type : Option String) :
    PlayRec where
  play_type := play_type
  field_position := t.field_position
  down := t.downs_completed
  yards_to_first_down := t.first_down_yards_needed

/-- `np.random.triangular(left, mode, right)` validates its parameters on
every call and raises `ValueError` when `left > mode`, `mode > right`, or
`left == right`.  This predicate (modelled from numpy's documented
behaviour) is true exactly when such a call raises. -/
def triangular_raises (left mode right : ℚ) : Bool :=
  decide (mode < left) || decide (right < mode) || decide (left = right)

/-- `np.random.normal(loc, scale)` raises `ValueError` when `scale < 0`.
This predicate (modelled from numpy's documented behaviour) is true exactly
when such a call raises. -/
def normal_raises (scale : ℚ) : Bool :=
  decide (scale < 0)

/-- `simulate_play_yards` with `n_plays = 1` (lines 111-117): one draw from
`np.random.triangular(min_yards, exp_yards, max_yards)`.  The oracle
supplies the value of a successful draw; numpy's per-call parameter
validation (`triangular_raises`) is outside this embedding, so the theorems
below describe the behaviour of drives along the successful-sampling path
and never infer from a completed embedded drive that the real program's
sampler accepted the team's parameters. -/
def FootballTeam.simulate_play_yards (t : FootballTeam) (rng : Rng) : ℚ × Rng :=
  rng.next

/-- `touch_down_conversion` (lines 119-128): deterministic extra point unless
`go_for_two`; a uniform draw is consumed only in the `elif` branch. -/
def FootballTeam.touch_down_conversion (t : FootballTeam) (rng : Rng) : ℕ × Rng :=
  if ¬t.go_for_two then (1, rng)
  else
    let (u, rng1) := rng.next
    if u ≤ t.two_point_conversion_rate then (2, rng1) else (0, rng1)

/-- `run_play` (lines 133-154). -/
def FootballTeam.run_play (t : FootballTeam) (rng : Rng) :
    Except Unit (FootballTeam × PlayRec × Rng) :=
  let (play_result, rng1) := t.simulate_play_yards rng
  let result_dict := t.get_play_conditions_dict (some "run_play")
  let t1 := t.update_field_position play_result
  let t2 := { t1 with downs_completed := t1.downs_completed + 1 }
  if t2.check_touchdown then
    let (bonus, rng2) := t2.touch_down_conversion rng1
    let points_from_play := 6 + bonus
    .ok (t2.update_score points_from_play,
      { result_dict with yards_gained := some play_result,
                         points_from_play := some points_from_play }, rng2)
  else
    match t2.update_yards_to_firstdown play_result with
    | .error e => .error e
    | .ok t3 =>
      .ok (t3,
        { result_dict with yards_gained := some play_result,
                           points_from_play := some 0 }, rng1)

/-- `punt` (lines 156-174): one draw from
`np.random.normal(punt_distance, punt_stdv)` for the distance; touchback
when the landing spot exceeds 100.  As with `simulate_play_yards`, the
oracle supplies the value of a successful draw; numpy's rejection of a
negative scale (`normal_raises`) is outside this embedding. -/
def FootballTeam.punt (t : FootballTeam) (rng : Rng) : FootballTeam × PlayRec × Rng :=
  let (punt_dist, rng1) := rng.next
  let punt_landing_spot := punt_dist + t.field_position
  let opponent_position : ℚ := if punt_landing_spot ≤ 100 then 100 - punt_landing_spot else 25
  let result_dict := t.get_play_conditions_dict (some "punt")
  ({ t with downs_completed := t.downs_completed + 1 },
   { result_dict with punt_distance := some punt_dist,
                      opponent_position := some opponent_position,
                      points_from_play := some 0 }, rng1)

/-- `get_field_goal_probability` (lines 196-219): pure step function of the
kick distance `(100 - field_position) + 17`. -/
def FootballTeam.get_field_goal_probability (t : FootballTeam) : ℚ :=
  let yards_to_endzone := 100 - t.field_position
  let kick_distance := yards_to_endzone + 17
  if kick_distance ≤ 40 then 0.90
  else if kick_distance ≤ 50 then 0.70
  else if kick_distance ≤ 60 then 0.60
  else 0

/-- `kick_field_goal` (lines 176-194): one uniform draw; made iff the draw is
`≤` the field-goal probability; records `yards_gained = -5`. -/
def FootballTeam.kick_field_goal (t : FootballTeam) (rng : Rng) :
    FootballTeam × PlayRec × Rng :=
  let (kick_attempt, rng1) := rng.next
  let made := kick_attempt ≤ t.get_field_goal_probability
  let points_from_play : ℕ := if made then 3 else 0
  let t1 := if made then t.update_score 3 else t
  let result_dict := t1.get_play_conditions_dict (some "field_goal")
  ({ t1 with downs_completed := t1.downs_completed + 1 },
   { result_dict with yards_gained := some (-5),
                      made_kick := some made,
                      points_from_play := some points_from_play }, rng1)

/-- `meets_fouth_down_criteria` (lines 221-222).  Python's `and`
short-circuits: the (possibly tuple-valued) `first_down_yards_needed` is
compared only when the field-position test passes. -/
def FootballTeam.meets_fouth_down_criteria (t : FootballTeam) : Except Unit Bool :=
  if t.field_position > t.fourth_down_position_thresh then
    match t.first_down_yards_needed with
    | .tup _ => .error ()
    | .num q => .ok (decide (q < t.fourth_down_yard_thresh))
  else .ok false

/-- `fourth_down_decision` (lines 224-236).  Python's `or` short-circuits:
`meets_fouth_down_criteria` is evaluated only when `need_touchdown` is
false. -/
def FootballTeam.fourth_down_decision (t : FootballTeam) (rng : Rng) :
    Except Unit (FootballTeam × PlayRec × Rng) :=
  if t.need_touchdown then t.run_play rng
  else
    match t.meets_fouth_down_criteria with
    | .error e => .error e
    | .ok true => t.run_play rng
    | .ok false =>
      if t.get_field_goal_probability > 0.55 then .ok (t.kick_field_goal rng)
      else if t.need_score then t.run_play rng
      else .ok (t.punt rng)

/-- Result of a fuel-bounded computation: `fuelOut` marks fuel exhaustion (an
embedding artifact standing for "the source loop is still running"), `pyErr`
a Python `TypeError`/missing-field failure. -/
inductive Res (α : Type) where
  | fuelOut
  | pyErr
  | ok (a : α)

/-- The `while` loop of `simulate_drive` (lines 244-255), with fuel. -/
def driveLoop : ℕ → FootballTeam → List PlayRec → Rng →
    Res (FootballTeam × List PlayRec × Rng)
  | 0, _, _, _ => .fuelOut
  | fuel + 1, t, plays, rng =>
    if t.downs_completed ≤ 3 ∧ t.field_position < 100 then
      match (if t.downs_completed ≤ 2 then t.run_play rng else t.fourth_down_decision rng) with
      | .error _ => .pyErr
      | .ok (t1, p, rng1) => driveLoop fuel t1 (plays ++ [p]) rng1
    else .ok (t, plays, rng)

/-- `simulate_drive` (lines 238-261): set the starting position, reset the
series, loop, then mark the possession completed and append the plays to the
drive history. -/
def FootballTeam.simulate_drive (t : FootballTeam) (starting_position : ℚ)
    (rng : Rng) (fuel : ℕ) : Res (FootballTeam × Rng) :=
  let t0 := (t.set_field_position starting_position).reset_series
  match driveLoop fuel t0 [] rng with
  | .fuelOut => .fuelOut
  | .pyErr => .pyErr
  | .ok (t1, plays, rng1) =>
    .ok ({ t1 with has_completed_a_possession := true,
                   drive_data := t1.drive_data ++ [plays] }, rng1)

/-- `get_last_play` (lines 130-131): last play of the last drive, `none` when
Python would raise an `IndexError`. -/
def FootballTeam.get_last_play (t : FootballTeam) : Option PlayRec :=
  t.drive_data.getLast?.bind fun plays => plays.getLast?

/-- The possession-transition logic shared by `determine_opponent_position`
(lines 269-282): scoring play → 25; punt → the punt's stored opponent
position; otherwise flip the field around the spot of the failed play. -/
def opponent_position_of_play (p : PlayRec) : Option ℚ := do
  let pts ← p.points_from_play
  if pts > 0 then pure 25
  else if p.play_type = some "punt" then p.opponent_position
  else do
    let y ← p.yards_gained
    pure (100 - (p.field_position + y))

/-- `determine_opponent_position` (lines 269-282). -/
def FootballTeam.determine_opponent_position (t : FootballTeam) : Option ℚ :=
  t.get_last_play.bind opponent_position_of_play

/-- Identifies one of the two teams of a game (the Python code stores object
references; we store which team is meant). -/
inductive TeamId where
  | first
  | second
deriving DecidableEq

/-- A value stored in the `game_data` dictionary. -/
inductive GDVal where
  | s (v : String)
  | q (v : ℚ)
  | n (v : ℕ)
  | ob (v : Option Bool)
deriving DecidableEq

/-- The state of a `FootballGame` object.  `game_data` models the Python
dictionary as a partial map from string keys to values. -/
structure FootballGame where
  ball_first_team : FootballTeam
  ball_second_team : FootballTeam
  game_data : String → Option GDVal
  winner : Option TeamId
  loser : Option TeamId

/-- `FootballGame.__init__` (lines 285-291). -/
def FootballGame.init (ball_first_team ball_second_team : FootballTeam) : FootballGame where
  ball_first_team := ball_first_team
  ball_second_team := ball_second_team
  game_data := fun _ => none
  winner := none
  loser := none

def FootballGame.getTeam (g : FootballGame) : TeamId → FootballTeam
  | .first => g.ball_first_team
  | .second => g.ball_second_team

/-- `check_for_winner` (lines 293-294): both teams have completed a
possession and the scores differ. -/
def FootballGame.check_for_winner (g : FootballGame) : Bool :=
  (g.ball_first_team.has_completed_a_possession &&
    g.ball_second_team.has_completed_a_possession) &&
  decide (g.ball_first_team.score ≠ g.ball_second_team.score)

/-- Which branch of `set_winning_team` executed; `noWinnerYet` and `weird`
stand for the two `print` branches of the source. -/
inductive WinnerBranch where
  | noWinnerYet
  | firstWins
  | secondWins
  | weird
deriving DecidableEq

/-- Line 298 reads `if not self.check_for_winner:`.  The expression
`self.check_for_winner` (no call parentheses) is a bound-method object, and a
bound method is always truthy in Python, so this constant models the truth
value of that guard's operand. -/
def methodRefTruthy : Bool := true

/-- `set_winning_team` (lines 296-311), returning the updated game and the
branch that executed. -/
def FootballGame.set_winning_team (g : FootballGame) : FootballGame × WinnerBranch :=
  if ¬methodRefTruthy then (g, .noWinnerYet)
  else if g.ball_first_team.score > g.ball_second_team.score then
    ({ g with winner := some .first, loser := some .second }, .firstWins)
  else if g.ball_first_team.score < g.ball_second_team.score then
    ({ g with winner := some .second, loser := some .first }, .secondWins)
  else ({ g with winner := none }, .weird)

/-- Python dictionary assignment `d[k] = v`: overwrite the binding for `k`,
keep all others. -/
def dset (d : String → Option GDVal) (k : String) (v : GDVal) : String → Option GDVal :=
  fun key => if key = k then some v else d key

/-- `pd.concat(drive_data).sum().yards_gained`: the sum of the
`yards_gained` column over every recorded play (pandas skips missing
values). -/
def FootballTeam.total_yards (t : FootballTeam) : ℚ :=
  (t.drive_data.map fun drive => (drive.map fun p => p.yards_gained.getD 0).sum).sum

/-- `update_game_data` (lines 319-334).  The source guards on
`self.winner is not None`; `self.loser` is set exactly when `self.winner`
is, so we match on both.  Note that lines 328 and 329 both assign the key
`'winner_score'` — the second assignment stores the loser's score, and no
`'loser_score'` key is ever written. -/
def FootballGame.update_game_data (g : FootballGame) : FootballGame :=
  match g.winner, g.loser with
  | some w, some l =>
    let wt := g.getTeam w
    let lt := g.getTeam l
    let d0 := dset g.game_data "winner" (.s wt.name)
    let d1 := dset d0 "loser" (.s lt.name)
    let d2 := dset d1 "winner_score" (.n wt.score)
    let d3 := dset d2 "winner_score" (.n lt.score)
    let d4 := dset d3 "winner_had_ball_first" (.ob wt.had_ball_first)
    let d5 := dset d4 "winning_team_number_of_drives" (.n wt.drive_data.length)
    let d6 := dset d5 "losing_team_number_of_drives" (.n lt.drive_data.length)
    let d7 := dset d6 "total_yards_winning_team" (.q wt.total_yards)
    let d8 := dset d7 "total_yards_losing_team" (.q lt.total_yards)
    { g with game_data := d8 }
  | _, _ => g

/-- `enable_sudden_death` (lines 352-356): clear both teams' overtime
obligation flags. -/
def FootballGame.enable_sudden_death (g : FootballGame) : FootballGame :=
  { g with
    ball_first_team := { g.ball_first_team with need_touchdown := false, need_score := false },
    ball_second_team := { g.ball_second_team with need_touchdown := false, need_score := false } }

/-- The sudden-death `while` loop of `simulate_game` (lines 385-393), with
fuel bounding the number of iterations the embedding is willing to unfold.
The source loop itself has no iteration cap of any kind. -/
def sdLoop (driveFuel : ℕ) : ℕ → FootballGame → ℚ → Rng → Res FootballGame
  | 0, g, _, _ => if g.check_for_winner then .ok g else .fuelOut
  | sdFuel + 1, g, starting_position, rng =>
    if g.check_for_winner then .ok g
    else
      match g.ball_first_team.simulate_drive starting_position rng driveFuel with
      | .fuelOut => .fuelOut
      | .pyErr => .pyErr
      | .ok (t1, rng1) =>
        let g1 := { g with ball_first_team := t1 }
        if g1.check_for_winner then .ok g1
        else
          match t1.determine_opponent_position with
          | none => .pyErr
          | some start1 =>
            match g1.ball_second_team.simulate_drive start1 rng1 driveFuel with
            | .fuelOut => .fuelOut
            | .pyErr => .pyErr
            | .ok (t2, rng2) =>
              let g2 := { g1 with ball_second_team := t2 }
              match t2.determine_opponent_position with
              | none => .pyErr
              | some start2 => sdLoop driveFuel sdFuel g2 start2 rng2

/-- `simulate_game` (lines 359-399).  Line 368 calls
`determine_opponent_position` once with a discarded result and line 369
calls it again; the function is a pure read of the drive history, so the
embedding computes it once. -/
def FootballGame.simulate_game (g : FootballGame) (rng : Rng)
    (driveFuel sdFuel : ℕ) : Res FootballGame :=
  let gA := { g with
    ball_first_team := { g.ball_first_team with had_ball_first := some true },
    ball_second_team := { g.ball_second_team with had_ball_first := some false } }
  match gA.ball_first_team.simulate_drive 25 rng driveFuel with
  | .fuelOut => .fuelOut
  | .pyErr => .pyErr
  | .ok (t1, rng1) =>
    match t1.determine_opponent_position with
    | none => .pyErr
    | some start1 =>
      let t2a := gA.ball_second_team
      let t2b := if t1.score = 7 then { t2a with need_touchdown := true } else t2a
      let t2c := if t1.score = 3 then { t2b with need_score := true } else t2b
      match t2c.simulate_drive start1 rng1 driveFuel with
      | .fuelOut => .fuelOut
      | .pyErr => .pyErr
      | .ok (t2, rng2) =>
        match t2.determine_opponent_position with
        | none => .pyErr
        | some start2 =>
          let gB := FootballGame.enable_sudden_death
            { gA with ball_first_team := t1, ball_second_team := t2 }
          match sdLoop driveFuel sdFuel gB start2 rng2 with
          | .fuelOut => .fuelOut
          | .pyErr => .pyErr
          | .ok gC =>
            let gD := (gC.set_winning_team).1
            .ok gD.update_game_data

/-! ## Concrete configurations used in the theorems -/

/-- An oracle whose every draw is `10` (degenerate yardage distribution). -/
def rngTen : Rng := ⟨fun _ => 10, 0⟩

/-- A team with the degenerate yardage parameters `min = mostLikely = max =
10` that never attempts two-point conversions (all other parameters at the
source defaults). -/
def teamDegenerate : FootballTeam :=
  FootballTeam.init "degenerate" false 10 10 10 45 4 2 45 (1/2) false false false

/-- The team of a drive result, `none` when the drive did not complete. -/
def resTeam : Res (FootballTeam × Rng) → Option FootballTeam
  | .ok (t, _) => some t
  | _ => none

/-- A team built from the source's default parameters. -/
def teamA : FootballTeam :=
  FootballTeam.init "A" false (-15) 6 25 45 4 2 45 (1/2) false false false

/-- A second team built from the source's default parameters. -/
def teamB : FootballTeam :=
  FootballTeam.init "B" false (-15) 6 25 45 4 2 45 (1/2) false false false

/-- An intentionally invalid configuration: minimum yards `50` exceeds both
the most-likely yards `6` and the maximum yards `25`, the punt standard
deviation is negative, and the two-point success probability `2` lies
outside `[0, 1]`. -/
def invalidTeam : FootballTeam :=
  FootballTeam.init "invalid" false 50 6 25 45 (-4) 2 45 2 false false false

/-- A touchdown play record (as produced by a scoring run play). -/
def playTD : PlayRec :=
  { play_type := some "run_play", field_position := 95, down := 0,
    yards_to_first_down := .num 10, yards_gained := some 10,
    points_from_play := some 7 }

/-- A scoreless three-and-out punt record. -/
def playPunt : PlayRec :=
  { play_type := some "punt", field_position := 25, down := 3,
    yards_to_first_down := .num 10, punt_distance := some 45,
    opponent_position := some 30, points_from_play := some 0 }

/-- `teamA` after winning 7-0 with a single touchdown drive. -/
def winnerTeamA : FootballTeam :=
  { teamA with
    score := 7
    has_completed_a_possession := true
    had_ball_first := some true
    drive_data := [[playTD]] }

/-- `teamB` after losing 0-7 with a single three-and-out drive. -/
def loserTeamB : FootballTeam :=
  { teamB with
    score := 0
    has_completed_a_possession := true
    had_ball_first := some false
    drive_data := [[playPunt]] }

/-- A resolved game: the first team won 7-0; used to evaluate
`update_game_data` at a concrete input. -/
def gameResolved : FootballGame :=
  { ball_first_team := winnerTeamA
    ball_second_team := loserTeamB
    game_data := fun _ => none
    winner := some .first
    loser := some .second }

/-- The play type recorded by a fourth-down decision, `none` on a Python
`TypeError`. -/
def playTypeOf : Except Unit (FootballTeam × PlayRec × Rng) → Option String
  | .ok (_, p, _) => p.play_type
  | .error _ => none

/-- A freshly constructed team whose fourth-down position threshold `10`
lies below the constructor's initial field position `25`. -/
def teamLowThresh : FootballTeam :=
  FootballTeam.init "w" false (-15) 6 25 45 4 2 10 (1/2) false false false

/-- A team in field-goal range at field position 70 (kick distance 47). -/
def team70 : FootballTeam :=
  { teamA with field_position := 70, downs_completed := 3,
               first_down_yards_needed := .num 7 }

/-- An oracle whose uniform draw `4/5` exceeds the `0.70` field-goal
probability at kick distance 47, so the kick misses. -/
def rngMiss : Rng := ⟨fun _ => 4/5, 0⟩

/-- The play record of a missed field-goal attempt from field position 70. -/
def rec70 : PlayRec := (team70.kick_field_goal rngMiss).2.1

/-- A team sitting at fourth down with a numeric yards-needed value, used to
exercise the fourth-down decision. -/
def teamFourth : FootballTeam :=
  { teamA with downs_completed := 3, first_down_yards_needed := .num 10 }

/-- The three possible outcomes of a run play for the down-and-distance
state, given that yards-needed holds the number `q` and the sampled yardage
is `r`: touchdown (position reaches 100), conversion (short of 100, gain at
least `q`: series resets), or no conversion (short of 100, gain below `q`:
the down counter advances). -/
def RunShape (t t1 : FootballTeam) (r q : ℚ) : Prop :=
  t1.field_position = t.field_position + r ∧
  ((100 ≤ t.field_position + r ∧ t1.downs_completed = t.downs_completed + 1 ∧
      t1.first_down_yards_needed = YardsVal.num q) ∨
   (t.field_position + r < 100 ∧ q ≤ r ∧ t1.downs_completed = 0 ∧
      t1.first_down_yards_needed = YardsVal.num 10) ∨
   (t.field_position + r < 100 ∧ r < q ∧ t1.downs_completed = t.downs_completed + 1 ∧
      t1.first_down_yards_needed = YardsVal.num (q - r)))

/-- Termination measure for the drive loop: every set of downs spans at most
4 plays, and each renewed set starts at least 10 yards farther downfield, so
`(110 - position - yardsNeeded) / 10` bounds the number of renewals still
possible while the loop guard can hold. -/
def phi (t : FootballTeam) (q : ℚ) : ℕ :=
  4 * (⌈(110 - t.field_position - q) / 10⌉).toNat + (4 - t.downs_completed)

/-- Oracle stream for a never-scoring game: every drive consists of three
0-yard runs (draws at indices ≡ 0,1,2 mod 4) followed by a 45-yard punt
(draw at index ≡ 3 mod 4). -/
def c1stream : ℕ → ℚ := fun i => if i % 4 = 3 then 45 else 0

/-- The oracle of the never-scoring game, starting at index 0. -/
def rngC1 : Rng := ⟨c1stream, 0⟩

/-- The never-scoring game: two default-parameter teams driven by
`c1stream`. -/
def gameC1 : FootballGame := FootballGame.init teamA teamB

/-- A 0-yard run play record at field position `fp`, down `d`. -/
def c1run (fp : ℚ) (d : ℕ) : PlayRec :=
  { play_type := some "run_play", field_position := fp, down := d,
    yards_to_first_down := .num 10, yards_gained := some 0,
    points_from_play := some 0 }

/-- A 45-yard punt record from field position `fp` leaving the opponent at
`opp`. -/
def c1punt (fp opp : ℚ) : PlayRec :=
  { play_type := some "punt", field_position := fp, down := 3,
    yards_to_first_down := .num 10, punt_distance := some 45,
    opponent_position := some opp, points_from_play := some 0 }

/-- The play list of a never-scoring drive from position 25 (punt lands at
70, opponent starts at 30). -/
def c1drive25 : List PlayRec :=
  [c1run 25 0, c1run 25 1, c1run 25 2] ++ [c1punt 25 30]

/-- The play list of a never-scoring drive from position 30 (punt lands at
75, opponent starts at 25). -/
def c1drive30 : List PlayRec :=
  [c1run 30 0, c1run 30 1, c1run 30 2] ++ [c1punt 30 25]

/-- The team state after a never-scoring drive that stalled at field position
`fp` and recorded the play list `d`. -/
def c1post (t : FootballTeam) (fp : ℚ) (d : List PlayRec) : FootballTeam :=
  { t with field_position := fp, downs_completed := 4,
           first_down_yards_needed := YardsVal.num 10,
           has_completed_a_possession := true,
           drive_data := t.drive_data ++ [d] }

/-! ## Theorems -/

/-- When the loop guard fails, the drive loop exits at once. -/
lemma driveLoop_exit (fuel : ℕ) (t : FootballTeam) (plays : List PlayRec) (rng : Rng)
    (h : ¬(t.downs_completed ≤ 3 ∧ t.field_position < 100)) :
    driveLoop (fuel + 1) t plays rng = .ok (t, plays, rng) := by
  simp [driveLoop, h]

/-- When the loop guard holds and the play succeeds, the drive loop recurses
on the play's result. -/
lemma driveLoop_step (fuel : ℕ) (t : FootballTeam) (plays : List PlayRec) (rng : Rng)
    (t1 : FootballTeam) (p : PlayRec) (rng1 : Rng)
    (hg : t.downs_completed ≤ 3 ∧ t.field_position < 100)
    (hstep : (if t.downs_completed ≤ 2 then t.run_play rng
              else t.fourth_down_decision rng) = .ok (t1, p, rng1)) :
    driveLoop (fuel + 1) t plays rng = driveLoop fuel t1 (plays ++ [p]) rng1 := by
  simp only [driveLoop, if_pos hg, hstep]

/-- A run play with numeric yards-needed always succeeds and its effect on
the down-and-distance state is one of the three `RunShape` outcomes. -/
lemma run_play_ok (t : FootballTeam) (rng : Rng) (q : ℚ)
    (hq : t.first_down_yards_needed = YardsVal.num q) :
    ∃ t1 p rng1, t.run_play rng = .ok (t1, p, rng1) ∧
      rng1.stream = rng.stream ∧ RunShape t t1 (rng.stream rng.idx) q := by
  by_cases htd : 100 ≤ t.field_position + rng.stream rng.idx
  · rcases hb : FootballTeam.touch_down_conversion
        { t with field_position := t.field_position + rng.stream rng.idx,
                 downs_completed := t.downs_completed + 1 }
        { rng with idx := rng.idx + 1 } with ⟨bonus, rng2⟩
    have hs2 : rng2.stream = rng.stream := by
      have h2 : (FootballTeam.touch_down_conversion _ _).2 = rng2 := congrArg Prod.snd hb
      rw [← h2]
      simp only [FootballTeam.touch_down_conversion, Rng.next]
      split_ifs <;> rfl
    refine ⟨{ t with field_position := t.field_position + rng.stream rng.idx,
                     downs_completed := t.downs_completed + 1,
                     score := t.score + (6 + bonus) },
        { play_type := some "run_play", field_position := t.field_position,
          down := t.downs_completed, yards_to_first_down := t.first_down_yards_needed,
          yards_gained := some (rng.stream rng.idx),
          points_from_play := some (6 + bonus) },
        rng2, ?_, hs2, ?_⟩
    · simp only [FootballTeam.run_play, FootballTeam.simulate_play_yards, Rng.next,
        FootballTeam.update_field_position, FootballTeam.check_touchdown,
        FootballTeam.get_play_conditions_dict, FootballTeam.update_score,
        ge_iff_le, decide_eq_true_eq]
      rw [if_pos htd, hb]
    · exact ⟨rfl, Or.inl ⟨htd, rfl, hq⟩⟩
  · push_neg at htd
    by_cases hcv : q - rng.stream rng.idx ≤ 0
    · refine ⟨{ t with field_position := t.field_position + rng.stream rng.idx,
                       downs_completed := 0,
                       first_down_yards_needed := YardsVal.num 10 },
          { play_type := some "run_play", field_position := t.field_position,
            down := t.downs_completed, yards_to_first_down := t.first_down_yards_needed,
            yards_gained := some (rng.stream rng.idx), points_from_play := some 0 },
          { rng with idx := rng.idx + 1 }, ?_, rfl, ?_⟩
      · simp only [FootballTeam.run_play, FootballTeam.simulate_play_yards, Rng.next,
          FootballTeam.update_field_position, FootballTeam.check_touchdown,
          FootballTeam.get_play_conditions_dict, FootballTeam.update_yards_to_firstdown,
          FootballTeam.reset_series, ge_iff_le, decide_eq_true_eq, hq]
        rw [if_neg (by push_neg; exact htd), if_pos hcv]
      · exact ⟨rfl, Or.inr (Or.inl ⟨htd, by linarith, rfl, rfl⟩)⟩
    · push_neg at hcv
      refine ⟨{ t with field_position := t.field_position + rng.stream rng.idx,
                       downs_completed := t.downs_completed + 1,
                       first_down_yards_needed := YardsVal.num (q - rng.stream rng.idx) },
          { play_type := some "run_play", field_position := t.field_position,
            down := t.downs_completed, yards_to_first_down := t.first_down_yards_needed,
            yards_gained := some (rng.stream rng.idx), points_from_play := some 0 },
          { rng with idx := rng.idx + 1 }, ?_, rfl, ?_⟩
      · simp only [FootballTeam.run_play, FootballTeam.simulate_play_yards, Rng.next,
          FootballTeam.update_field_position, FootballTeam.check_touchdown,
          FootballTeam.get_play_conditions_dict, FootballTeam.update_yards_to_firstdown,
          FootballTeam.reset_series, ge_iff_le, decide_eq_true_eq, hq]
        rw [if_neg (by push_neg; exact htd), if_neg (by linarith)]
      · exact ⟨rfl, Or.inr (Or.inr ⟨htd, by linarith, rfl, rfl⟩)⟩

/-- A field-goal attempt advances the down counter and leaves field position
and yards-needed untouched. -/
lemma kick_field_goal_state (t : FootballTeam) (rng : Rng) :
    (t.kick_field_goal rng).1.downs_completed = t.downs_completed + 1 ∧
    (t.kick_field_goal rng).1.field_position = t.field_position ∧
    (t.kick_field_goal rng).1.first_down_yards_needed = t.first_down_yards_needed ∧
    (t.kick_field_goal rng).2.2.stream = rng.stream := by
  unfold FootballTeam.kick_field_goal Rng.next FootballTeam.update_score
  dsimp only
  split_ifs <;> exact ⟨rfl, rfl, rfl, rfl⟩

/-- A fourth-down decision with numeric yards-needed always succeeds; its
state effect is either a run-play outcome or a pure down-counter bump (field
goal or punt). -/
lemma fourth_down_ok (t : FootballTeam) (rng : Rng) (q : ℚ)
    (hq : t.first_down_yards_needed = YardsVal.num q) :
    ∃ t1 p rng1, t.fourth_down_decision rng = .ok (t1, p, rng1) ∧
      rng1.stream = rng.stream ∧
      (RunShape t t1 (rng.stream rng.idx) q ∨
        (t1.downs_completed = t.downs_completed + 1 ∧
         t1.field_position = t.field_position ∧
         t1.first_down_yards_needed = YardsVal.num q)) := by
  unfold FootballTeam.fourth_down_decision
  by_cases hnt : t.need_touchdown
  · rw [if_pos hnt]
    obtain ⟨t1, p, rng1, he, hs, hsh⟩ := run_play_ok t rng q hq
    exact ⟨t1, p, rng1, he, hs, Or.inl hsh⟩
  · rw [if_neg hnt]
    have hm : ∃ b : Bool, t.meets_fouth_down_criteria = .ok b := by
      unfold FootballTeam.meets_fouth_down_criteria
      rw [hq]
      split_ifs <;> exact ⟨_, rfl⟩
    obtain ⟨b, hm⟩ := hm
    simp only [hm]
    cases b
    · by_cases hfg : t.get_field_goal_probability > 0.55
      · rw [if_pos hfg]
        obtain ⟨h1, h2, h3, h4⟩ := kick_field_goal_state t rng
        exact ⟨(t.kick_field_goal rng).1, (t.kick_field_goal rng).2.1,
          (t.kick_field_goal rng).2.2, rfl, h4, Or.inr ⟨h1, h2, h3 ▸ hq ▸ rfl⟩⟩
      · rw [if_neg hfg]
        by_cases hns : t.need_score
        · rw [if_pos hns]
          obtain ⟨t1, p, rng1, he, hs, hsh⟩ := run_play_ok t rng q hq
          exact ⟨t1, p, rng1, he, hs, Or.inl hsh⟩
        · rw [if_neg hns]
          exact ⟨(t.punt rng).1, (t.punt rng).2.1, (t.punt rng).2.2, rfl, rfl,
            Or.inr ⟨rfl, rfl, hq⟩⟩
    · obtain ⟨t1, p, rng1, he, hs, hsh⟩ := run_play_ok t rng q hq
      exact ⟨t1, p, rng1, he, hs, Or.inl hsh⟩

/-- Dividing by ten and taking ceilings: moving at least ten farther strictly
decreases the (truncated) ceiling count while it is still positive. -/
lemma ceil_div_ten_lt {a b : ℚ} (h : a ≤ b - 10) (hb : 0 < b) :
    (⌈a / 10⌉).toNat < (⌈b / 10⌉).toNat := by
  have h1 : ⌈a / 10⌉ ≤ ⌈b / 10 - 1⌉ := Int.ceil_mono (by linarith)
  have h2 : ⌈b / 10 - 1⌉ = ⌈b / 10⌉ - 1 := by
    have h3 := Int.ceil_sub_int (b / 10) 1
    simpa using h3
  have h4 : 0 < ⌈b / 10⌉ := Int.ceil_pos.mpr (by positivity)
  omega

/-- Main termination lemma for the drive loop: starting from any state whose
yards-needed is the number `q` with `fieldPosition + q < 110`, fuel
exceeding the measure `phi` completes the loop. -/
lemma driveLoop_ok : ∀ (fuel : ℕ) (t : FootballTeam) (plays : List PlayRec)
    (rng : Rng) (q : ℚ),
    t.first_down_yards_needed = YardsVal.num q →
    t.field_position + q < 110 →
    phi t q < fuel →
    ∃ t1 plays1 rng1, driveLoop fuel t plays rng = .ok (t1, plays1, rng1) := by
  intro fuel
  induction fuel with
  | zero => exact fun t plays rng q hq hinv hphi => absurd hphi (by omega)
  | succ n ih =>
    intro t plays rng q hq hinv hphi
    by_cases hg : t.downs_completed ≤ 3 ∧ t.field_position < 100
    case neg => exact ⟨t, plays, rng, driveLoop_exit n t plays rng hg⟩
    case pos =>
      have hd3 := hg.1
      have hphi1 : 1 ≤ phi t q := by unfold phi; omega
      have hstep : ∃ t1 p rng1,
          (if t.downs_completed ≤ 2 then t.run_play rng
            else t.fourth_down_decision rng) = .ok (t1, p, rng1) ∧
          rng1.stream = rng.stream ∧
          (RunShape t t1 (rng.stream rng.idx) q ∨
            (t1.downs_completed = t.downs_completed + 1 ∧
             t1.field_position = t.field_position ∧
             t1.first_down_yards_needed = YardsVal.num q)) := by
        by_cases h2 : t.downs_completed ≤ 2
        · obtain ⟨t1, p, rng1, he, hs, hsh⟩ := run_play_ok t rng q hq
          exact ⟨t1, p, rng1, by rw [if_pos h2]; exact he, hs, Or.inl hsh⟩
        · obtain ⟨t1, p, rng1, he, hs, hsh⟩ := fourth_down_ok t rng q hq
          exact ⟨t1, p, rng1, by rw [if_neg h2]; exact he, hs, hsh⟩
      obtain ⟨t1, p, rng1, he, hs, hsh⟩ := hstep
      rw [driveLoop_step n t plays rng t1 p rng1 hg he]
      by_cases hg1 : t1.downs_completed ≤ 3 ∧ t1.field_position < 100
      case neg =>
        obtain ⟨m, rfl⟩ : ∃ m, n = m + 1 := ⟨n - 1, by omega⟩
        exact ⟨t1, plays ++ [p], rng1, driveLoop_exit m t1 _ rng1 hg1⟩
      case pos =>
        rcases hsh with ⟨hfp, hcase⟩ | ⟨hdn, hfp, hyn⟩
        · rcases hcase with ⟨htd, hdn, hyn⟩ | ⟨hlt, hge, hdn, hyn⟩ | ⟨hlt, hlt2, hdn, hyn⟩
          · exact absurd (hfp ▸ hg1.2) (not_lt.mpr htd)
          · refine ih t1 (plays ++ [p]) rng1 10 hyn (by rw [hfp]; linarith) ?_
            have hdec : phi t1 10 < phi t q := by
              unfold phi
              rw [hfp, hdn]
              have hN := ceil_div_ten_lt
                (a := 110 - (t.field_position + rng.stream rng.idx) - 10)
                (b := 110 - t.field_position - q) (by linarith) (by linarith)
              omega
            omega
          · refine ih t1 (plays ++ [p]) rng1 (q - rng.stream rng.idx) hyn
              (by rw [hfp]; linarith) ?_
            have hdec : phi t1 (q - rng.stream rng.idx) < phi t q := by
              unfold phi
              rw [hfp, hdn]
              have harg : 110 - (t.field_position + rng.stream rng.idx) -
                  (q - rng.stream rng.idx) = 110 - t.field_position - q := by ring
              rw [harg]
              have hd2 : t.downs_completed + 1 ≤ 3 := hdn ▸ hg1.1
              omega
            omega
        · refine ih t1 (plays ++ [p]) rng1 q hyn (by rw [hfp]; linarith) ?_
          have hdec : phi t1 q < phi t q := by
            unfold phi
            rw [hfp, hdn]
            have hd2 : t.downs_completed + 1 ≤ 3 := hdn ▸ hg1.1
            omega
          omega

/-- C10: from any starting position below 100, and for every oracle (i.e.
whatever finite yardage each play samples), `simulate_drive` terminates: the
series is renewed only after gaining at least 10 net yards, so field position
advances at least 10 per renewal, the loop also requires position < 100, and
each set runs at most 4 plays — fuel `4 * ceil((100 - start)/10) + 5` always
suffices to finish the drive. -/
theorem c10_drive_termination (t : FootballTeam) (start : ℚ) (rng : Rng)
    (h : start < 100) :
    ∃ t1 rng1, t.simulate_drive start rng (4 * (⌈(100 - start) / 10⌉).toNat + 5) =
      Res.ok (t1, rng1) := by
  have hq : ((t.set_field_position start).reset_series).first_down_yards_needed =
      YardsVal.num 10 := rfl
  have hinv : ((t.set_field_position start).reset_series).field_position + 10 < 110 := by
    show start + 10 < 110
    linarith
  have hphi : phi ((t.set_field_position start).reset_series) 10 <
      4 * (⌈(100 - start) / 10⌉).toNat + 5 := by
    show 4 * (⌈((110 : ℚ) - start - 10) / 10⌉).toNat + (4 - 0) <
      4 * (⌈(100 - start) / 10⌉).toNat + 5
    have harg : (110 : ℚ) - start - 10 = 100 - start := by ring
    rw [harg]
    omega
  obtain ⟨t1, plays1, rng1, hloop⟩ :=
    driveLoop_ok (4 * (⌈(100 - start) / 10⌉).toNat + 5)
      ((t.set_field_position start).reset_series) [] rng 10 hq hinv hphi
  unfold FootballTeam.simulate_drive
  dsimp only
  rw [hloop]
  exact ⟨_, _, rfl⟩

/-- C10 witness: at the concrete starting position 25 the bound is
`4 * 8 + 5 = 37` plays' worth of fuel, and the degenerate team's drive
completes within it. -/
theorem c10_witness :
    (25 : ℚ) < 100 ∧
    ∃ t1 rng1, teamDegenerate.simulate_drive 25 rngTen
      (4 * (⌈((100 : ℚ) - 25) / 10⌉).toNat + 5) = Res.ok (t1, rng1) :=
  ⟨by norm_num, c10_drive_termination teamDegenerate 25 rngTen (by norm_num)⟩

/-- C3: for every game state, the "no winner yet" guard branch of
`set_winning_team` never executes — the guard tests the method reference
`check_for_winner`, which is always truthy, so its negation is always false —
and whenever the two scores differ, `set_winning_team` assigns `winner` to
the higher-scoring team and `loser` to the other. -/
theorem c3_no_winner_branch_unreachable (g : FootballGame) :
    (g.set_winning_team).2 ≠ WinnerBranch.noWinnerYet ∧
    (g.ball_first_team.score > g.ball_second_team.score →
      (g.set_winning_team).1.winner = some TeamId.first ∧
      (g.set_winning_team).1.loser = some TeamId.second) ∧
    (g.ball_second_team.score > g.ball_first_team.score →
      (g.set_winning_team).1.winner = some TeamId.second ∧
      (g.set_winning_team).1.loser = some TeamId.first) := by
  unfold FootballGame.set_winning_team methodRefTruthy
  refine ⟨?_, fun h => ?_, fun h => ?_⟩ <;> simp <;> split_ifs <;> simp_all <;> omega

/-- C3 witness: at a concrete 7-0 game the branch taken is `firstWins`, not
`noWinnerYet`, and the winner is the first team. -/
theorem c3_witness :
    gameResolved.ball_first_team.score > gameResolved.ball_second_team.score ∧
    (gameResolved.set_winning_team).2 ≠ WinnerBranch.noWinnerYet ∧
    (gameResolved.set_winning_team).1.winner = some TeamId.first ∧
    (gameResolved.set_winning_team).1.loser = some TeamId.second := by
  have h := c3_no_winner_branch_unreachable gameResolved
  have hs : gameResolved.ball_first_team.score > gameResolved.ball_second_team.score := by
    norm_num [gameResolved, winnerTeamA, loserTeamB, teamA, teamB, FootballTeam.init]
  exact ⟨hs, h.1, (h.2.1 hs).1, (h.2.1 hs).2⟩

/-- C4 counterexample: constructing a team whose parameters are invalid
(minimum yards 50 > most-likely 6, negative punt standard deviation,
two-point probability 2 outside [0,1]) raises no error at construction
time: the constructor completes and returns a team holding the invalid
values verbatim.  The stored values are exactly ones that numpy's samplers
reject — `triangular_raises` and `normal_raises` hold of them — so the
program's first complaint about this configuration can only come later,
from a sampling call during a simulated drive, never from `__init__`. -/
theorem c4_counterexample :
    invalidTeam.min_yards = 50 ∧ invalidTeam.exp_yards = 6 ∧
    invalidTeam.max_yards = 25 ∧ invalidTeam.punt_stdv = -4 ∧
    invalidTeam.two_point_conversion_rate = 2 ∧
    triangular_raises invalidTeam.min_yards invalidTeam.exp_yards
      invalidTeam.max_yards = true ∧
    normal_raises invalidTeam.punt_stdv = true := by
  refine ⟨rfl, rfl, rfl, rfl, rfl, ?_, ?_⟩ <;>
    norm_num [invalidTeam, FootballTeam.init, triangular_raises, normal_raises]

/-- C4 amended: team construction performs no parameter validation
whatsoever — every parameter, valid or not, is stored verbatim and no error
is raised at construction time.  (Invalid parameters are instead rejected
later by numpy's samplers, at the first draw of a simulated play.) -/
theorem c4_amended_no_validation (name : String) (hcp : Bool)
    (mn ex mx pd ps yt pt tp : ℚ) (g2 ntd ns : Bool) :
    (FootballTeam.init name hcp mn ex mx pd ps yt pt tp g2 ntd ns).min_yards = mn ∧
    (FootballTeam.init name hcp mn ex mx pd ps yt pt tp g2 ntd ns).exp_yards = ex ∧
    (FootballTeam.init name hcp mn ex mx pd ps yt pt tp g2 ntd ns).max_yards = mx ∧
    (FootballTeam.init name hcp mn ex mx pd ps yt pt tp g2 ntd ns).punt_distance = pd ∧
    (FootballTeam.init name hcp mn ex mx pd ps yt pt tp g2 ntd ns).punt_stdv = ps ∧
    (FootballTeam.init name hcp mn ex mx pd ps yt pt tp g2 ntd ns).two_point_conversion_rate = tp ∧
    (FootballTeam.init name hcp mn ex mx pd ps yt pt tp g2 ntd ns).name = name ∧
    (FootballTeam.init name hcp mn ex mx pd ps yt pt tp g2 ntd ns).score = 0 ∧
    (FootballTeam.init name hcp mn ex mx pd ps yt pt tp g2 ntd ns).field_position = 25 :=
  ⟨rfl, rfl, rfl, rfl, rfl, rfl, rfl, rfl, rfl⟩

/-- C2 (code-bug evidence): at a concrete resolved 7-0 game,
`update_game_data` stores the loser's score under the key
`'winner_score'` (line 329 overwrites line 328's assignment) and never
creates a `'loser_score'` key, so the produced summary does not expose both
scores. -/
theorem c2_winner_score_overwritten :
    gameResolved.ball_first_team.score = 7 ∧
    gameResolved.ball_second_team.score = 0 ∧
    gameResolved.winner = some TeamId.first ∧
    (gameResolved.update_game_data).game_data "winner_score" = some (GDVal.n 0) ∧
    (gameResolved.update_game_data).game_data "loser_score" = none ∧
    (gameResolved.update_game_data).game_data "winner" = some (GDVal.s "A") ∧
    (gameResolved.update_game_data).game_data "loser" = some (GDVal.s "B") := by
  refine ⟨rfl, rfl, rfl, ?_, ?_, ?_, ?_⟩ <;>
    simp [gameResolved, winnerTeamA, loserTeamB, teamA, teamB, FootballTeam.init,
      FootballGame.update_game_data, FootballGame.getTeam, dset]

/-- C9: a freshly constructed team holds the one-element tuple `(10,)` in
`first_down_yards_needed`, never a plain number; reading operations see the
tuple (the play-conditions snapshot records it, subtracting from it is a
`TypeError`, and comparing it inside `meets_fouth_down_criteria` is a
`TypeError` whenever the field-position test passes); the value becomes the
number `10` only when `reset_series` runs, as it does at the start of
`simulate_drive`. -/
theorem c9_constructor_tuple (t : FootballTeam) (name : String) (hcp : Bool)
    (mn ex mx pd ps yt pt tp : ℚ) (g2 ntd ns : Bool)
    (ht : t = FootballTeam.init name hcp mn ex mx pd ps yt pt tp g2 ntd ns) :
    t.first_down_yards_needed = YardsVal.tup 10 ∧
    (∀ q, t.first_down_yards_needed ≠ YardsVal.num q) ∧
    (t.get_play_conditions_dict none).yards_to_first_down = YardsVal.tup 10 ∧
    (∀ r, t.update_yards_to_firstdown r = .error ()) ∧
    (t.field_position > t.fourth_down_position_thresh →
      t.meets_fouth_down_criteria = .error ()) ∧
    t.reset_series.first_down_yards_needed = YardsVal.num 10 ∧
    (∀ s, ((t.set_field_position s).reset_series).first_down_yards_needed =
      YardsVal.num 10) := by
  subst ht
  refine ⟨rfl, fun q h => by simp [FootballTeam.init] at h, rfl, fun r => rfl, fun h => ?_,
    rfl, fun s => rfl⟩
  simp only [FootballTeam.meets_fouth_down_criteria, if_pos h]
  rfl

/-- C9 witness: with a position threshold of 10 the fresh team's field
position 25 passes the threshold test, so the criteria comparison hits the
tuple and errors; the subtraction errors as well, and `reset_series` turns
the tuple into the number 10. -/
theorem c9_witness :
    teamLowThresh.first_down_yards_needed = YardsVal.tup 10 ∧
    teamLowThresh.update_yards_to_firstdown 5 = .error () ∧
    teamLowThresh.meets_fouth_down_criteria = .error () ∧
    teamLowThresh.reset_series.first_down_yards_needed = YardsVal.num 10 := by
  have h := c9_constructor_tuple teamLowThresh "w" false (-15) 6 25 45 4 2 10 (1/2)
    false false false rfl
  refine ⟨h.1, h.2.2.2.1 5, h.2.2.2.2.1 ?_, h.2.2.2.2.2.1⟩
  norm_num [teamLowThresh, FootballTeam.init]

/-- A run play whose team state carries a numeric yards-needed value always
succeeds and records play type `"run_play"`. -/
lemma playTypeOf_run_play (t : FootballTeam) (rng : Rng) (q : ℚ)
    (hq : t.first_down_yards_needed = YardsVal.num q) :
    playTypeOf (t.run_play rng) = some "run_play" := by
  simp only [FootballTeam.run_play, FootballTeam.simulate_play_yards, Rng.next,
    FootballTeam.get_play_conditions_dict, FootballTeam.update_field_position,
    FootballTeam.check_touchdown, FootballTeam.update_score,
    FootballTeam.touch_down_conversion, FootballTeam.update_yards_to_firstdown,
    FootballTeam.reset_series, hq]
  split_ifs <;> simp [playTypeOf]

/-- C5: at fourth down (`downs_completed = 3`) the decision follows the
source's rule order — (1) convert when `need_touchdown` is set or the
field position exceeds the position threshold while yards-needed is below
the yard threshold, (2) else field goal when the field-goal probability
exceeds 0.55, (3) else convert when `need_score` is set, (4) else punt;
in particular `need_touchdown` forces a conversion attempt regardless of
the thresholds. -/
theorem c5_fourth_down_decision_order (t : FootballTeam) (rng : Rng) (q : ℚ)
    (hq : t.first_down_yards_needed = YardsVal.num q) :
    ((t.need_touchdown = true ∨
        (t.field_position > t.fourth_down_position_thresh ∧
          q < t.fourth_down_yard_thresh)) →
      playTypeOf (t.fourth_down_decision rng) = some "run_play") ∧
    (t.need_touchdown = false →
      ¬(t.field_position > t.fourth_down_position_thresh ∧
          q < t.fourth_down_yard_thresh) →
      t.get_field_goal_probability > 0.55 →
      playTypeOf (t.fourth_down_decision rng) = some "field_goal") ∧
    (t.need_touchdown = false →
      ¬(t.field_position > t.fourth_down_position_thresh ∧
          q < t.fourth_down_yard_thresh) →
      ¬(t.get_field_goal_probability > 0.55) →
      t.need_score = true →
      playTypeOf (t.fourth_down_decision rng) = some "run_play") ∧
    (t.need_touchdown = false →
      ¬(t.field_position > t.fourth_down_position_thresh ∧
          q < t.fourth_down_yard_thresh) →
      ¬(t.get_field_goal_probability > 0.55) →
      t.need_score = false →
      playTypeOf (t.fourth_down_decision rng) = some "punt") := by
  have hrun := playTypeOf_run_play t rng q hq
  have hcrit_true : ∀ hfp : t.field_position > t.fourth_down_position_thresh,
      q < t.fourth_down_yard_thresh → t.meets_fouth_down_criteria = .ok true := by
    intro hfp hyq
    simp [FootballTeam.meets_fouth_down_criteria, hfp, hq, hyq]
  have hcrit_false : ¬(t.field_position > t.fourth_down_position_thresh ∧
      q < t.fourth_down_yard_thresh) → t.meets_fouth_down_criteria = .ok false := by
    intro hn
    by_cases hfp : t.field_position > t.fourth_down_position_thresh
    · have hyq : ¬q < t.fourth_down_yard_thresh := fun hyq => hn ⟨hfp, hyq⟩
      simp [FootballTeam.meets_fouth_down_criteria, hfp, hq, hyq]
    · simp [FootballTeam.meets_fouth_down_criteria, hfp]
  refine ⟨?_, ?_, ?_, ?_⟩
  · rintro (hnt | ⟨hfp, hyq⟩)
    · simpa [FootballTeam.fourth_down_decision, hnt] using hrun
    · by_cases hnt : t.need_touchdown
      · simpa [FootballTeam.fourth_down_decision, hnt] using hrun
      · simp only [FootballTeam.fourth_down_decision, hnt, if_false,
          hcrit_true hfp hyq]
        exact hrun
  · intro hnt hn hfg
    simp [FootballTeam.fourth_down_decision, hnt, hcrit_false hn, hfg, playTypeOf,
      FootballTeam.kick_field_goal, Rng.next, FootballTeam.get_play_conditions_dict,
      FootballTeam.update_score]
  · intro hnt hn hfg hns
    simp only [FootballTeam.fourth_down_decision, hnt, Bool.false_eq_true, if_false,
      hcrit_false hn, if_neg hfg, hns, if_true]
    exact hrun
  · intro hnt hn hfg hns
    simp [FootballTeam.fourth_down_decision, hnt, hcrit_false hn, hfg, hns, playTypeOf,
      FootballTeam.punt, Rng.next, FootballTeam.get_play_conditions_dict]

/-- C5 witness: at the default thresholds and field position 25 the decision
without any obligation flag is a punt, while the same state with
`need_touchdown` set converts instead. -/
theorem c5_witness :
    playTypeOf (({ teamFourth with need_touchdown := true }).fourth_down_decision rngTen) =
      some "run_play" ∧
    playTypeOf (teamFourth.fourth_down_decision rngTen) = some "punt" := by
  constructor
  · exact (c5_fourth_down_decision_order { teamFourth with need_touchdown := true }
      rngTen 10 rfl).1 (Or.inl rfl)
  · refine (c5_fourth_down_decision_order teamFourth rngTen 10 rfl).2.2.2 rfl ?_ ?_ rfl
    · norm_num [teamFourth, teamA, FootballTeam.init]
    · norm_num [teamFourth, teamA, FootballTeam.init, FootballTeam.get_field_goal_probability]

/-- C7: the next possession's start is derived from the final play of the
previous drive — a scoring play yields 25; a punt yields the opponent
position computed during the punt (25 on a touchback landing beyond 100,
otherwise 100 minus the landing spot); any other scoreless final play flips
the field: 100 minus (field position before the play plus yards gained). -/
theorem c7_possession_transition (p : PlayRec) (t : FootballTeam) (rng : Rng)
    (pts : ℕ) (y : ℚ) :
    (p.points_from_play = some pts → 0 < pts →
      opponent_position_of_play p = some 25) ∧
    (opponent_position_of_play (t.punt rng).2.1 =
      some (if rng.stream rng.idx + t.field_position ≤ 100
            then 100 - (rng.stream rng.idx + t.field_position) else 25)) ∧
    (p.points_from_play = some 0 → p.play_type ≠ some "punt" →
      p.yards_gained = some y →
      opponent_position_of_play p = some (100 - (p.field_position + y))) := by
  refine ⟨fun h hpos => ?_, ?_, fun h0 hnp hy => ?_⟩
  · simp [opponent_position_of_play, h, hpos]
  · simp [opponent_position_of_play, FootballTeam.punt, Rng.next,
      FootballTeam.get_play_conditions_dict]
  · simp [opponent_position_of_play, h0, hnp, hy]

/-- C7 witness: a field goal missed from field position 70 is recorded with
yards gained -5 and no points, and the possession transition places the
opponent at 100 - (70 - 5) = 35. -/
theorem c7_witness :
    rec70.points_from_play = some 0 ∧
    rec70.play_type = some "field_goal" ∧
    rec70.made_kick = some false ∧
    rec70.yards_gained = some (-5) ∧
    rec70.field_position = 70 ∧
    opponent_position_of_play rec70 = some 35 := by
  have h0 : rec70.points_from_play = some 0 := by
    norm_num [rec70, team70, teamA, FootballTeam.init, FootballTeam.kick_field_goal,
      Rng.next, rngMiss, FootballTeam.get_play_conditions_dict,
      FootballTeam.get_field_goal_probability, FootballTeam.update_score]
  have hnp : rec70.play_type ≠ some "punt" := by
    simp [rec70, team70, teamA, FootballTeam.init, FootballTeam.kick_field_goal,
      Rng.next, rngMiss, FootballTeam.get_play_conditions_dict,
      FootballTeam.get_field_goal_probability, FootballTeam.update_score]
  have hy : rec70.yards_gained = some (-5) := by
    norm_num [rec70, team70, teamA, FootballTeam.init, FootballTeam.kick_field_goal,
      Rng.next, rngMiss, FootballTeam.get_play_conditions_dict,
      FootballTeam.get_field_goal_probability, FootballTeam.update_score]
  have hfp : rec70.field_position = 70 := by
    norm_num [rec70, team70, teamA, FootballTeam.init, FootballTeam.kick_field_goal,
      Rng.next, rngMiss, FootballTeam.get_play_conditions_dict,
      FootballTeam.get_field_goal_probability, FootballTeam.update_score]
  have hmk : rec70.made_kick = some false := by
    norm_num [rec70, team70, teamA, FootballTeam.init, FootballTeam.kick_field_goal,
      Rng.next, rngMiss, FootballTeam.get_play_conditions_dict,
      FootballTeam.get_field_goal_probability, FootballTeam.update_score]
  have hpt : rec70.play_type = some "field_goal" := by
    simp [rec70, team70, teamA, FootballTeam.init, FootballTeam.kick_field_goal,
      Rng.next, rngMiss, FootballTeam.get_play_conditions_dict,
      FootballTeam.get_field_goal_probability, FootballTeam.update_score]
  have hmain := (c7_possession_transition rec70 teamA rngTen 0 (-5)).2.2 h0 hnp hy
  rw [hfp] at hmain
  norm_num at hmain
  exact ⟨h0, hpt, hmk, hy, hfp, hmain⟩

/-- C6: the drive loop runs a play only when `downs_completed ≤ 3` (so downs
is in {0,1,2,3} at the start of every play — when it is 4 the loop exits at
once without running a play); a run play at `downs_completed = 3` that stays
short of the end zone and gains at least the needed yards resets
`downs_completed` to 0 and yards-needed to 10 while the field position keeps
the value set by the play itself (the reset does not touch it), leaving the
loop guard true so the drive continues; the same play gaining less than the
needed yards leaves `downs_completed = 4`, and the loop then exits without
running another play. -/
theorem c6_downs_invariant_and_conversion (t : FootballTeam) (rng : Rng) (q : ℚ)
    (hd : t.downs_completed = 3) (hq : t.first_down_yards_needed = YardsVal.num q) :
    (∀ (t0 : FootballTeam) (fuel : ℕ) (plays : List PlayRec) (rng0 : Rng),
      ¬t0.downs_completed ≤ 3 →
      driveLoop (fuel + 1) t0 plays rng0 = .ok (t0, plays, rng0)) ∧
    (t.field_position + rng.stream rng.idx < 100 → q ≤ rng.stream rng.idx →
      t.run_play rng = .ok
        ({ t with field_position := t.field_position + rng.stream rng.idx,
                  downs_completed := 0, first_down_yards_needed := YardsVal.num 10 },
         { play_type := some "run_play", field_position := t.field_position,
           down := 3, yards_to_first_down := YardsVal.num q,
           yards_gained := some (rng.stream rng.idx), points_from_play := some 0 },
         { rng with idx := rng.idx + 1 }) ∧
      (({ t with field_position := t.field_position + rng.stream rng.idx,
                 downs_completed := 0,
                 first_down_yards_needed := YardsVal.num 10 } :
            FootballTeam).downs_completed ≤ 3 ∧
        ({ t with field_position := t.field_position + rng.stream rng.idx,
                  downs_completed := 0,
                  first_down_yards_needed := YardsVal.num 10 } :
            FootballTeam).field_position < 100)) ∧
    (t.field_position + rng.stream rng.idx < 100 → rng.stream rng.idx < q →
      t.run_play rng = .ok
        ({ t with field_position := t.field_position + rng.stream rng.idx,
                  downs_completed := 4,
                  first_down_yards_needed := YardsVal.num (q - rng.stream rng.idx) },
         { play_type := some "run_play", field_position := t.field_position,
           down := 3, yards_to_first_down := YardsVal.num q,
           yards_gained := some (rng.stream rng.idx), points_from_play := some 0 },
         { rng with idx := rng.idx + 1 }) ∧
      ∀ (fuel : ℕ) (plays : List PlayRec),
        driveLoop (fuel + 1)
          { t with field_position := t.field_position + rng.stream rng.idx,
                   downs_completed := 4,
                   first_down_yards_needed := YardsVal.num (q - rng.stream rng.idx) }
          plays { rng with idx := rng.idx + 1 } = .ok
            ({ t with field_position := t.field_position + rng.stream rng.idx,
                      downs_completed := 4,
                      first_down_yards_needed := YardsVal.num (q - rng.stream rng.idx) },
             plays, { rng with idx := rng.idx + 1 })) := by
  refine ⟨fun t0 fuel plays rng0 h => ?_, fun hlt hconv => ⟨?_, ?_, hlt⟩,
    fun hlt hshort => ⟨?_, fun fuel plays => ?_⟩⟩
  · have hng : ¬(t0.downs_completed ≤ 3 ∧ t0.field_position < 100) := fun hc => h hc.1
    simp [driveLoop, hng]
  · simp only [FootballTeam.run_play, FootballTeam.simulate_play_yards, Rng.next,
      FootballTeam.get_play_conditions_dict, FootballTeam.update_field_position,
      FootballTeam.check_touchdown, FootballTeam.update_yards_to_firstdown,
      FootballTeam.reset_series, hd, hq]
    rw [if_neg (by simp; linarith), if_pos (by linarith)]
  · simp
  · simp only [FootballTeam.run_play, FootballTeam.simulate_play_yards, Rng.next,
      FootballTeam.get_play_conditions_dict, FootballTeam.update_field_position,
      FootballTeam.check_touchdown, FootballTeam.update_yards_to_firstdown,
      FootballTeam.reset_series, hd, hq]
    rw [if_neg (by simp; linarith), if_neg (by simp; linarith)]
  · have hng : ¬((4 : ℕ) ≤ 3 ∧
        t.field_position + rng.stream rng.idx < 100) := by simp
    simp [driveLoop, hng]

/-- C6 witness: at fourth down from field position 25 with 10 yards needed, a
10-yard gain converts — downs reset to 0, yards-needed reset to 10, field
position 35 as set by the play — and the loop guard still holds. -/
theorem c6_witness :
    teamFourth.run_play rngTen = .ok
      ({ teamFourth with field_position := 35, downs_completed := 0,
                         first_down_yards_needed := YardsVal.num 10 },
       { play_type := some "run_play", field_position := 25, down := 3,
         yards_to_first_down := YardsVal.num 10, yards_gained := some 10,
         points_from_play := some 0 },
       { rngTen with idx := 1 }) := by
  have h := (c6_downs_invariant_and_conversion teamFourth rngTen 10 rfl rfl).2.1
    (by norm_num [teamFourth, teamA, FootballTeam.init, rngTen])
    (by norm_num [rngTen])
  have h1 := h.1
  norm_num [teamFourth, teamA, FootballTeam.init, rngTen] at h1 ⊢
  convert h1 using 2

set_option maxHeartbeats 2000000 in
/-- C8: with the degenerate yardage distribution (every sample exactly 10)
and no two-point attempts, a drive started at field position 25 consists of
exactly 8 plays, all of type `"run_play"`, with field positions 35, 45, 55,
65, 75, 85, 95, 105 after successive plays; every play starts a fresh set
(the pre-play yards-needed snapshot is the number 10 each time, i.e. every
set of downs converts); the eighth play is the touchdown and the final score
is 7 (6 plus the deterministic extra point). -/
theorem c8_degenerate_drive :
    (resTeam (teamDegenerate.simulate_drive 25 rngTen 20)).map
      (fun t1 => t1.score) = some 7 ∧
    (resTeam (teamDegenerate.simulate_drive 25 rngTen 20)).map
      (fun t1 => t1.field_position) = some 105 ∧
    (resTeam (teamDegenerate.simulate_drive 25 rngTen 20)).map
      (fun t1 => t1.drive_data.map List.length) = some [8] ∧
    (resTeam (teamDegenerate.simulate_drive 25 rngTen 20)).map
      (fun t1 => t1.drive_data.map (fun d => d.map (fun p => p.play_type))) =
      some [[some "run_play", some "run_play", some "run_play", some "run_play",
             some "run_play", some "run_play", some "run_play", some "run_play"]] ∧
    (resTeam (teamDegenerate.simulate_drive 25 rngTen 20)).map
      (fun t1 => t1.drive_data.map
        (fun d => d.map (fun p => p.field_position + p.yards_gained.getD 0))) =
      some [[35, 45, 55, 65, 75, 85, 95, 105]] ∧
    (resTeam (teamDegenerate.simulate_drive 25 rngTen 20)).map
      (fun t1 => t1.drive_data.map
        (fun d => d.map (fun p => p.yards_to_first_down))) =
      some [[YardsVal.num 10, YardsVal.num 10, YardsVal.num 10, YardsVal.num 10,
             YardsVal.num 10, YardsVal.num 10, YardsVal.num 10, YardsVal.num 10]] ∧
    (resTeam (teamDegenerate.simulate_drive 25 rngTen 20)).map
      (fun t1 => t1.drive_data.map
        (fun d => d.map (fun p => p.points_from_play))) =
      some [[some 0, some 0, some 0, some 0, some 0, some 0, some 0, some 7]] := by
  refine ⟨?_, ?_, ?_, ?_, ?_, ?_, ?_⟩ <;>
    norm_num [teamDegenerate, rngTen, resTeam, FootballTeam.init,
      FootballTeam.simulate_drive, driveLoop, FootballTeam.run_play,
      FootballTeam.simulate_play_yards, FootballTeam.get_play_conditions_dict,
      FootballTeam.update_field_position, FootballTeam.update_yards_to_firstdown,
      FootballTeam.reset_series, FootballTeam.set_field_position,
      FootballTeam.check_touchdown, FootballTeam.touch_down_conversion,
      FootballTeam.update_score, Rng.next]

/-- Under `c1stream` at an index ≡ 0 (mod 4), a drive from 25 by a team with
no obligation flags and the default position threshold is three 0-yard runs
and a punt to the opponent's 30, consuming 4 draws; any fuel of at least 5
completes it. -/
lemma c1_drive25 (t : FootballTeam) (k n : ℕ) (hk : k % 4 = 0)
    (h1 : t.need_touchdown = false) (h2 : t.need_score = false)
    (h3 : t.fourth_down_position_thresh = 45) :
    t.simulate_drive 25 ⟨c1stream, k⟩ (n + 5) =
      .ok (c1post t 25 c1drive25, ⟨c1stream, k + 4⟩) := by
  have e0 : c1stream k = 0 := by unfold c1stream; rw [if_neg (by omega)]
  have e1 : c1stream (k + 1) = 0 := by unfold c1stream; rw [if_neg (by omega)]
  have e2 : c1stream (k + 2) = 0 := by unfold c1stream; rw [if_neg (by omega)]
  have e3 : c1stream (k + 3) = 45 := by unfold c1stream; rw [if_pos (by omega)]
  have hf : n + 5 = n + 1 + 1 + 1 + 1 + 1 := by omega
  rw [hf]
  norm_num [FootballTeam.simulate_drive, driveLoop, FootballTeam.run_play,
    FootballTeam.fourth_down_decision, FootballTeam.meets_fouth_down_criteria,
    FootballTeam.get_field_goal_probability, FootballTeam.punt,
    FootballTeam.simulate_play_yards, FootballTeam.get_play_conditions_dict,
    FootballTeam.update_field_position, FootballTeam.update_yards_to_firstdown,
    FootballTeam.reset_series, FootballTeam.set_field_position,
    FootballTeam.check_touchdown, Rng.next, e0, e1, e2, e3, h1, h2, h3,
    c1post, c1drive25, c1run, c1punt]

/-- Under `c1stream` at an index ≡ 0 (mod 4), a drive from 30 by a team with
no obligation flags and the default position threshold is three 0-yard runs
and a punt to the opponent's 25, consuming 4 draws; any fuel of at least 5
completes it. -/
lemma c1_drive30 (t : FootballTeam) (k n : ℕ) (hk : k % 4 = 0)
    (h1 : t.need_touchdown = false) (h2 : t.need_score = false)
    (h3 : t.fourth_down_position_thresh = 45) :
    t.simulate_drive 30 ⟨c1stream, k⟩ (n + 5) =
      .ok (c1post t 30 c1drive30, ⟨c1stream, k + 4⟩) := by
  have e0 : c1stream k = 0 := by unfold c1stream; rw [if_neg (by omega)]
  have e1 : c1stream (k + 1) = 0 := by unfold c1stream; rw [if_neg (by omega)]
  have e2 : c1stream (k + 2) = 0 := by unfold c1stream; rw [if_neg (by omega)]
  have e3 : c1stream (k + 3) = 45 := by unfold c1stream; rw [if_pos (by omega)]
  have hf : n + 5 = n + 1 + 1 + 1 + 1 + 1 := by omega
  rw [hf]
  norm_num [FootballTeam.simulate_drive, driveLoop, FootballTeam.run_play,
    FootballTeam.fourth_down_decision, FootballTeam.meets_fouth_down_criteria,
    FootballTeam.get_field_goal_probability, FootballTeam.punt,
    FootballTeam.simulate_play_yards, FootballTeam.get_play_conditions_dict,
    FootballTeam.update_field_position, FootballTeam.update_yards_to_firstdown,
    FootballTeam.reset_series, FootballTeam.set_field_position,
    FootballTeam.check_touchdown, Rng.next, e0, e1, e2, e3, h1, h2, h3,
    c1post, c1drive30, c1run, c1punt]

/-- With fuel below 5 the never-scoring drive from 25 runs out of fuel. -/
lemma c1_drive25_small (t : FootballTeam) (k df : ℕ) (hk : k % 4 = 0) (hdf : df ≤ 4)
    (h1 : t.need_touchdown = false) (h2 : t.need_score = false)
    (h3 : t.fourth_down_position_thresh = 45) :
    t.simulate_drive 25 ⟨c1stream, k⟩ df = Res.fuelOut := by
  have e0 : c1stream k = 0 := by unfold c1stream; rw [if_neg (by omega)]
  have e1 : c1stream (k + 1) = 0 := by unfold c1stream; rw [if_neg (by omega)]
  have e2 : c1stream (k + 2) = 0 := by unfold c1stream; rw [if_neg (by omega)]
  have e3 : c1stream (k + 3) = 45 := by unfold c1stream; rw [if_pos (by omega)]
  interval_cases df <;>
    norm_num [FootballTeam.simulate_drive, driveLoop, FootballTeam.run_play,
      FootballTeam.fourth_down_decision, FootballTeam.meets_fouth_down_criteria,
      FootballTeam.get_field_goal_probability, FootballTeam.punt,
      FootballTeam.simulate_play_yards, FootballTeam.get_play_conditions_dict,
      FootballTeam.update_field_position, FootballTeam.update_yards_to_firstdown,
      FootballTeam.reset_series, FootballTeam.set_field_position,
      FootballTeam.check_touchdown, Rng.next, e0, e1, e2, e3, h1, h2, h3]

/-- With fuel below 5 the never-scoring drive from 30 runs out of fuel. -/
lemma c1_drive30_small (t : FootballTeam) (k df : ℕ) (hk : k % 4 = 0) (hdf : df ≤ 4)
    (h1 : t.need_touchdown = false) (h2 : t.need_score = false)
    (h3 : t.fourth_down_position_thresh = 45) :
    t.simulate_drive 30 ⟨c1stream, k⟩ df = Res.fuelOut := by
  have e0 : c1stream k = 0 := by unfold c1stream; rw [if_neg (by omega)]
  have e1 : c1stream (k + 1) = 0 := by unfold c1stream; rw [if_neg (by omega)]
  have e2 : c1stream (k + 2) = 0 := by unfold c1stream; rw [if_neg (by omega)]
  have e3 : c1stream (k + 3) = 45 := by unfold c1stream; rw [if_pos (by omega)]
  interval_cases df <;>
    norm_num [FootballTeam.simulate_drive, driveLoop, FootballTeam.run_play,
      FootballTeam.fourth_down_decision, FootballTeam.meets_fouth_down_criteria,
      FootballTeam.get_field_goal_probability, FootballTeam.punt,
      FootballTeam.simulate_play_yards, FootballTeam.get_play_conditions_dict,
      FootballTeam.update_field_position, FootballTeam.update_yards_to_firstdown,
      FootballTeam.reset_series, FootballTeam.set_field_position,
      FootballTeam.check_touchdown, Rng.next, e0, e1, e2, e3, h1, h2, h3]

/-- After a never-scoring drive from 25, the possession transition places the
opponent at 30 (the punt's stored opponent position). -/
lemma c1_det_opp25 (t : FootballTeam) :
    (c1post t 25 c1drive25).determine_opponent_position = some 30 := by
  simp [c1post, FootballTeam.determine_opponent_position, FootballTeam.get_last_play,
    List.getLast?_concat, c1drive25, c1run, c1punt, opponent_position_of_play]

/-- After a never-scoring drive from 30, the possession transition places the
opponent at 25. -/
lemma c1_det_opp30 (t : FootballTeam) :
    (c1post t 30 c1drive30).determine_opponent_position = some 25 := by
  simp [c1post, FootballTeam.determine_opponent_position, FootballTeam.get_last_play,
    List.getLast?_concat, c1drive30, c1run, c1punt, opponent_position_of_play]

/-- Under `c1stream`, from any game state whose teams have equal scores, no
obligation flags and default position thresholds, the sudden-death loop
never produces a result, whatever the per-drive and loop fuel: the scores
stay tied forever. -/
lemma sdLoop_c1 (df : ℕ) (sf : ℕ) : ∀ (g : FootballGame) (k : ℕ), k % 4 = 0 →
    g.ball_first_team.score = g.ball_second_team.score →
    g.ball_first_team.need_touchdown = false →
    g.ball_first_team.need_score = false →
    g.ball_first_team.fourth_down_position_thresh = 45 →
    g.ball_second_team.need_touchdown = false →
    g.ball_second_team.need_score = false →
    g.ball_second_team.fourth_down_position_thresh = 45 →
    sdLoop df sf g 25 ⟨c1stream, k⟩ = Res.fuelOut := by
  induction sf with
  | zero =>
    intro g k hk hsc ha1 ha2 ha3 hb1 hb2 hb3
    simp [sdLoop, FootballGame.check_for_winner, hsc]
  | succ n ih =>
    intro g k hk hsc ha1 ha2 ha3 hb1 hb2 hb3
    have hchk : g.check_for_winner = false := by
      simp [FootballGame.check_for_winner, hsc]
    by_cases hdf : df ≤ 4
    · have hdr := c1_drive25_small g.ball_first_team k df hk hdf ha1 ha2 ha3
      simp only [sdLoop, hchk, Bool.false_eq_true, if_false, hdr]
    · obtain ⟨m, rfl⟩ : ∃ m, df = m + 5 := ⟨df - 5, by omega⟩
      have hd1 := c1_drive25 g.ball_first_team k m hk ha1 ha2 ha3
      simp only [sdLoop, hchk, Bool.false_eq_true, if_false, hd1]
      have hchk1 : (FootballGame.check_for_winner
          { g with ball_first_team := c1post g.ball_first_team 25 c1drive25 }) = false := by
        simp [FootballGame.check_for_winner, c1post, hsc]
      simp only [hchk1, Bool.false_eq_true, if_false, c1_det_opp25]
      have hd2 := c1_drive30 g.ball_second_team (k + 4) m (by omega) hb1 hb2 hb3
      simp only [hd2, c1_det_opp30]
      exact ih _ (k + 4 + 4) (by omega) hsc ha1 ha2 ha3 hb1 hb2 hb3

/-- Under `c1stream`, a whole game between two scoreless default-threshold
teams never resolves: regulation ends 0-0 and the sudden-death loop ties
forever, so `simulate_game` exhausts any fuel. -/
lemma simulate_game_c1 (df sf : ℕ) (g : FootballGame)
    (ha0 : g.ball_first_team.score = 0) (hb0 : g.ball_second_team.score = 0)
    (ha1 : g.ball_first_team.need_touchdown = false)
    (ha2 : g.ball_first_team.need_score = false)
    (ha3 : g.ball_first_team.fourth_down_position_thresh = 45)
    (hb1 : g.ball_second_team.need_touchdown = false)
    (hb2 : g.ball_second_team.need_score = false)
    (hb3 : g.ball_second_team.fourth_down_position_thresh = 45) :
    g.simulate_game ⟨c1stream, 0⟩ df sf = Res.fuelOut := by
  by_cases hdf : df ≤ 4
  · have hdr := c1_drive25_small { g.ball_first_team with had_ball_first := some true }
      0 df rfl hdf ha1 ha2 ha3
    simp only [FootballGame.simulate_game, hdr]
  · obtain ⟨m, rfl⟩ : ∃ m, df = m + 5 := ⟨df - 5, by omega⟩
    have hd1 := c1_drive25 { g.ball_first_team with had_ball_first := some true }
      0 m rfl ha1 ha2 ha3
    have hs1 : (c1post { g.ball_first_team with had_ball_first := some true }
      25 c1drive25).score = 0 := ha0
    have hd2 := c1_drive30 { g.ball_second_team with had_ball_first := some false }
      4 m (by omega) hb1 hb2 hb3
    simp only [FootballGame.simulate_game, hd1, c1_det_opp25, hs1]
    norm_num
    simp only [hd2, c1_det_opp30]
    simp [FootballGame.enable_sudden_death, sdLoop_c1 (m + 5) sf, c1post,
      ha0, hb0, ha1, ha2, ha3, hb1, hb2, hb3]

/-- The never-scoring game exhausts every fuel allocation. -/
lemma c1_never_ok (df sf : ℕ) : gameC1.simulate_game rngC1 df sf = Res.fuelOut :=
  simulate_game_c1 df sf gameC1 rfl rfl rfl rfl rfl rfl rfl rfl

/-- C1 counterexample: the claim that `simulate_game`'s sudden-death phase is
bounded by a maximum possession count (returning a distinguishable "no
decision" result when the bound is exceeded) is false: for the concrete
never-scoring configuration `gameC1`/`rngC1` there is no fuel allocation —
no bound on drive length and no bound on sudden-death possessions — under
which the simulation produces any result at all; the source loop simply
never exits. -/
theorem c1_counterexample :
    ¬∃ (driveFuel sdFuel : ℕ) (g : FootballGame),
      gameC1.simulate_game rngC1 driveFuel sdFuel = Res.ok g := by
  rintro ⟨df, sf, g, hg⟩
  rw [c1_never_ok df sf] at hg
  exact Res.noConfusion hg

/-- C1 amended: the sudden-death loop of `simulate_game` has no iteration cap
and no "no decision" outcome — its only exit condition is `check_for_winner`;
under a configuration in which neither team ever scores, every unfolding
depth of the loop (any `sdFuel`, with any per-drive fuel `driveFuel`) leaves
the loop still running. -/
theorem c1_no_iteration_cap (driveFuel sdFuel : ℕ) :
    gameC1.simulate_game rngC1 driveFuel sdFuel = Res.fuelOut :=
  c1_never_ok driveFuel sdFuel

end NFLSim
